import Mathlib

/-!
# Verification of the PersonalAiChatBoT audio pipeline (src/app.py)

A shallow embedding of the text-to-speech subsystem of `app.py`:
provider fallback (`generate_free_tts`, the nested `generate_audio`),
the LRU-cached paid provider path (`cached_text_to_speech`, built on
Python's `functools.lru_cache(maxsize=128)`), the chat endpoint
(`chat_endpoint`), the on-demand audio endpoint (`text_to_speech`),
the greeting path (`generate_introduction`) and the transcription
endpoint (`transcribe_with_assemblyai`).

Python conventions used throughout the embedding:
* Python byte strings are `List Nat` (`Bytes`); `b''` is `[]`.
* Python text used as data (messages, cache keys) is `List Char`
  (`PyStr`), so slicing `s[:500]` is `List.take 500`.
* A fallible Python expression is `Except PyErr _`; a `try/except`
  block is the `pyTry` combinator.
* Python truthiness of `bytes`/`None` values is `truthyOpt`.
-/

set_option autoImplicit false

namespace App

/-- A raised Python exception, abstracted to its message. -/
structure PyErr where
  msg : String
deriving DecidableEq, Repr

/-- A Python `bytes` value: the list of byte values. -/
abbrev Bytes := List Nat

/-- A Python `str` used as data (message text, cache key). -/
abbrev PyStr := List Char

/-- `try: body except: handler` — the handler receives the raised exception. -/
def pyTry {α : Type} (body : Except PyErr α) (handler : PyErr → Except PyErr α) :
    Except PyErr α :=
  match body with
  | .ok a => .ok a
  | .error e => handler e

/-- Python truthiness of a `bytes` value: `b''` is falsy. -/
def truthy (b : Bytes) : Bool :=
  !b.isEmpty

/-- Python truthiness of a `bytes | None` value: `None` and `b''` are falsy. -/
def truthyOpt : Option Bytes → Bool
  | none => false
  | some b => truthy b

/-!
## Base64 (`base64.b64encode(...).decode('utf-8')`)

Handlers encode audio bytes to base64 text before putting them in JSON.
-/

/-- The base64 alphabet. -/
def b64alphabet : List Char :=
  "ABCDEFGHIJKLMNOPQRSTUVWXYZabcdefghijklmnopqrstuvwxyz0123456789+/".toList

/-- The base64 digit for a 6-bit value. -/
def b64digit (n : Nat) : Char :=
  b64alphabet.getD n 'A'

/-- Standard base64 encoding of a byte list, with `=` padding. -/
def base64Encode : List Nat → List Char
  | [] => []
  | [a] =>
      [b64digit (a / 4), b64digit (a % 4 * 16), '=', '=']
  | [a, b] =>
      [b64digit (a / 4), b64digit (a % 4 * 16 + b / 16), b64digit (b % 16 * 4), '=']
  | a :: b :: c :: rest =>
      b64digit (a / 4) :: b64digit (a % 4 * 16 + b / 16) ::
        b64digit (b % 16 * 4 + c / 64) :: b64digit (c % 64) :: base64Encode rest

/-- `base64.b64encode(b).decode('utf-8')` as a Lean `String`. -/
def base64String (b : Bytes) : String :=
  String.mk (base64Encode b)

/-!
## Free provider (`generate_free_tts`, app.py:273-300)

`requests.get` either raises a transport exception or yields an HTTP
response; the environment of one call is that one outcome.
-/

/-- An HTTP response as `generate_free_tts` inspects it. -/
structure HttpResponse where
  status_code : Nat
  content : Bytes
deriving DecidableEq, Repr

/-- `generate_free_tts(text)` (app.py:273-300): issue the GET request;
on status 200 return `response.content`, on any other status return
`None`, and catch any raised exception, returning `None`.
The GET call's outcome for this text is the `freeApi` argument. -/
def generate_free_tts (freeApi : Except PyErr HttpResponse) : Option Bytes :=
  match freeApi with
  | .error _ => none
  | .ok response =>
      if response.status_code = 200 then some response.content else none

/-!
## The synthesis cache (`functools.lru_cache(maxsize=128)`)

`cached_text_to_speech` is decorated with `@lru_cache(maxsize=128)`,
an LRU cache keyed by the exact argument text. We model the cache
state explicitly: entries ordered most-recently-used first.
-/

/-- The state of a `functools.lru_cache`: entries most-recently-used
first, and the configured `maxsize`. -/
structure LruCache where
  entries : List (PyStr × Bytes)
  maxsize : Nat
deriving DecidableEq, Repr

/-- The `maxsize` of `cached_text_to_speech`'s cache (app.py:483). -/
def CACHE_MAXSIZE : Nat := 128

namespace LruCache

/-- Pure lookup: the value stored for `k`, if any. -/
def lookup (c : LruCache) (k : PyStr) : Option Bytes :=
  (c.entries.find? (fun e => decide (e.1 = k))).map (·.2)

/-- A cache hit in `lru_cache`: returns the stored value and moves the
entry to most-recently-used position. `none` on a miss. -/
def get (c : LruCache) (k : PyStr) : Option (Bytes × LruCache) :=
  match c.entries.find? (fun e => decide (e.1 = k)) with
  | none => none
  | some e =>
      some (e.2, ⟨e :: c.entries.eraseP (fun x => decide (x.1 = k)), c.maxsize⟩)

/-- Storing a computed value in `lru_cache`: the key becomes
most-recently-used; if the cache grows past `maxsize`, the
least-recently-used entry (the last) is discarded. -/
def put (c : LruCache) (k : PyStr) (v : Bytes) : LruCache :=
  ⟨((k, v) :: c.entries.eraseP (fun x => decide (x.1 = k))).take c.maxsize, c.maxsize⟩

end LruCache

/-!
## Paid provider path (`cached_text_to_speech`, app.py:483-506)
-/

/-- What `client.generate(...)` yields when it does not raise: either a
single byte buffer or a generator of chunks. -/
inductive GenerateResult where
  | bytes (b : Bytes)
  | chunks (cs : List Bytes)
deriving DecidableEq, Repr

/-- app.py:502-504: `if hasattr(audio_data, '__iter__') and not
isinstance(audio_data, (bytes, bytearray)): audio_data = b''.join(audio_data)`.
A generator is drained into one contiguous buffer; bytes pass through. -/
def materialize : GenerateResult → Bytes
  | .bytes b => b
  | .chunks cs => cs.flatten

/-- `cached_text_to_speech(text)` (app.py:483-506) with the
`lru_cache(maxsize=128)` state explicit. On a hit the cached bytes are
returned and the entry's recency refreshed, without calling the client.
On a miss the client is called once; if it raises, the exception
propagates (nothing is cached); otherwise the materialized bytes are
stored and returned. The result carries the new cache state and the
number of underlying `client.generate` calls made. -/
def cached_text_to_speech (client : PyStr → Except PyErr GenerateResult)
    (cache : LruCache) (text : PyStr) : Except PyErr (Bytes × LruCache × Nat) :=
  match cache.get text with
  | some (b, c) => .ok (b, c, 0)
  | none =>
      match client text with
      | .error e => .error e
      | .ok g =>
          let b := materialize g
          .ok (b, cache.put text b, 1)

/-!
## Fallback synthesizer (`generate_audio`, app.py:396-420)

The nested function in `chat_endpoint`: try the free provider; if its
result is truthy return it; otherwise try the cached paid path inside
`try/except`, returning its result when truthy; otherwise `None`.
-/

/-- `generate_audio()` (app.py:396-420). Returns the produced
`bytes | None` together with the cache state after the call (the
`lru_cache` state is process-global in Python). The free provider's
call outcome is `freeApi`; the paid client is `client`. -/
def generate_audio (freeApi : Except PyErr HttpResponse)
    (client : PyStr → Except PyErr GenerateResult)
    (cache : LruCache) (text : PyStr) :
    Except PyErr (Option Bytes × LruCache) :=
  let audio1 := generate_free_tts freeApi
  if truthyOpt audio1 then .ok (audio1, cache)
  else
    pyTry
      ((cached_text_to_speech client cache text).bind fun r =>
        if truthy r.1 then .ok (some r.1, r.2.1) else .ok (none, r.2.1))
      (fun _ => .ok (none, cache))

/-!
## Chat endpoint (`chat_endpoint`, app.py:371-459)

`request.json.get('message')` yields `None` when the payload has no
`message` field; `len(None)` then raises `TypeError` inside the outer
`try`, whose `except` returns the fixed apologetic fallback.
-/

/-- The outbound payload of `/chat`: `jsonify({'response': ...,
'audio': ..., 'status': ...})`. The audio field is a base64 string or
`null`. -/
structure ChatResponse where
  response : String
  audio : Option String
  status : String
deriving DecidableEq, Repr

/-- The fixed apologetic fallback text of app.py:456. -/
def apologyText : String :=
  "I\x27m sorry, I encountered an error processing your request. This might be due to API quota limitations. Please try again with a shorter message."

/-- app.py:385-386: `if len(user_message) > 500: user_message =
user_message[:500] + "..."`. -/
def truncateMessage (m : PyStr) : PyStr :=
  if m.length > 500 then m.take 500 ++ ['.', '.', '.'] else m

/-- `chat_endpoint()` (app.py:371-459). `message` is
`request.json.get('message')` (`none` when the field is absent);
`gemini` is `chat.send_message(...).text` for the forwarded text;
`freeApi` and `client` are the two providers' call outcomes. Returns
the JSON payload and the cache state afterwards.

`len(user_message)` on a `None` message raises `TypeError` inside the
outer `try` (app.py:385 is inside the `try` opened at app.py:383, while
the `.get` at app.py:381 is outside it); the outer `except`
(app.py:452-459) converts any such exception — as well as a
`chat.send_message` failure — into the apologetic `api_error` payload.
The audio future: `generate_audio` is submitted inside a
`with ThreadPoolExecutor()` block, after which `future.result(timeout=10)`
is consulted; its value branches into `success` / `no_audio`, and a
raised exception (from the task or a timeout) into `audio_error`. -/
def chat_endpoint (message : Option PyStr)
    (gemini : PyStr → Except PyErr String)
    (freeApi : Except PyErr HttpResponse)
    (client : PyStr → Except PyErr GenerateResult)
    (cache : LruCache) : ChatResponse × LruCache :=
  let body : Except PyErr (ChatResponse × LruCache) :=
    match message with
    | none => .error ⟨"TypeError: object of type NoneType has no len()"⟩
    | some m =>
        let user_message := truncateMessage m
        (gemini user_message).bind fun response_text =>
          match generate_audio freeApi client cache response_text.toList with
          | .ok (some audio_data, c) =>
              .ok (⟨response_text, some (base64String audio_data), "success"⟩, c)
          | .ok (none, c) =>
              .ok (⟨response_text, none, "no_audio"⟩, c)
          | .error _ =>
              .ok (⟨response_text, none, "audio_error"⟩, cache)
  match body with
  | .ok r => r
  | .error _ => (⟨apologyText, none, "api_error"⟩, cache)

/-!
## Timing of the audio wait (app.py:422-451)

A discrete-time model of the executor dance. `generate_audio` is
modelled as a task with a wall-clock duration (seconds) and a result.
The source does

    with ThreadPoolExecutor() as executor:
        future = executor.submit(generate_audio)
    ...
    audio_data = future.result(timeout=10)

`with`'s exit calls `executor.shutdown(wait=True)`, which joins the
worker: the caller blocks for the task's full duration before
`future.result` runs, so by then the future is already complete.
-/

/-- A computation together with the wall-clock seconds it takes. -/
structure TimedTask (α : Type) where
  duration : Nat
  result : α

/-- The outcome `future.result(timeout=...)` hands the caller: the
task's value, or a raised `TimeoutError`. -/
inductive FutureOutcome (α : Type) where
  | completed (a : α)
  | timedOut
deriving DecidableEq

/-- `future.result(timeout)` called when `alreadyElapsed` seconds have
passed since the task was submitted: if the task is already done it
returns at once; otherwise it waits for the task up to `timeout`
further seconds, then raises `TimeoutError`. Returns (seconds this
call blocks, outcome). -/
def futureResult {α : Type} (alreadyElapsed : Nat) (task : TimedTask α)
    (timeout : Nat) : Nat × FutureOutcome α :=
  if task.duration ≤ alreadyElapsed then (0, .completed task.result)
  else if task.duration - alreadyElapsed ≤ timeout then
    (task.duration - alreadyElapsed, .completed task.result)
  else (timeout, .timedOut)

/-- The audio wait of `chat_endpoint` (app.py:422-428): submit the task
in a `with ThreadPoolExecutor()` block — whose exit blocks for the full
task duration via `shutdown(wait=True)` — then call
`future.result(timeout=10)`. Returns (total seconds the caller is
blocked before the outcome is known, outcome). -/
def chatAudioWait (task : TimedTask (Option Bytes)) :
    Nat × FutureOutcome (Option Bytes) :=
  let elapsedAtWithExit := task.duration
  let r := futureResult elapsedAtWithExit task 10
  (elapsedAtWithExit + r.1, r.2)

/-- The `status` field app.py:426-451 produces from the future's
outcome: a value branches into `success`/`no_audio`; a raised
exception (`TimeoutError` included) is caught at app.py:445 and tagged
`audio_error`. -/
def chatStatusOfOutcome : FutureOutcome (Option Bytes) → String
  | .completed (some _) => "success"
  | .completed none => "no_audio"
  | .timedOut => "audio_error"

/-- Modelled from the spec: `runWithDeadline(fn, deadlineSeconds)`
"blocks the caller for at most `deadlineSeconds` (10 seconds for the
chat audio path)" and returns a timeout indication otherwise. This is
the behaviour §4.4 prescribes, for comparison with `chatAudioWait`. -/
def runWithDeadlineSpec (task : TimedTask (Option Bytes)) (deadline : Nat) :
    Nat × FutureOutcome (Option Bytes) :=
  if task.duration ≤ deadline then (task.duration, .completed task.result)
  else (deadline, .timedOut)

/-!
## Greeting path (`generate_introduction`, app.py:320-369)
-/

/-- The outcome of `generate_introduction`: introduction text plus
optional base64 audio. -/
structure IntroData where
  text : PyStr
  audio : Option String
deriving DecidableEq

/-- The hard-coded fallback introduction of app.py:367. -/
def fallbackIntroText : PyStr :=
  "Hi! I\x27m Boobalamurgan AI assistant. I\x27m here to chat about tech, AI, and software development.".toList

/-- `generate_introduction()` (app.py:320-369). `introSource` is the
f-string over `user_data` (app.py:331), which raises `KeyError`/
`IndexError` when the resume data lacks the accessed fields; the outer
`except` (app.py:363-369) then returns the hard-coded text with no
audio. Otherwise: try the free provider — a truthy result is returned
base64-encoded; then try the cached paid path inside `try/except` — a
truthy result is returned base64-encoded; else text only. Returns the
payload and the cache state afterwards. -/
def generate_introduction (introSource : Except PyErr PyStr)
    (freeApi : Except PyErr HttpResponse)
    (client : PyStr → Except PyErr GenerateResult)
    (cache : LruCache) : IntroData × LruCache :=
  match introSource with
  | .error _ => (⟨fallbackIntroText, none⟩, cache)
  | .ok introduction =>
      let audio1 := generate_free_tts freeApi
      if truthyOpt audio1 then
        (⟨introduction, audio1.map base64String⟩, cache)
      else
        match cached_text_to_speech client cache introduction with
        | .error _ => (⟨introduction, none⟩, cache)
        | .ok (b, c, _) =>
            if truthy b then (⟨introduction, some (base64String b)⟩, c)
            else (⟨introduction, none⟩, c)

/-!
## On-demand audio endpoint (`text_to_speech`, app.py:461-481)
-/

/-- The response of `/audio/<text>`: either the audio bytes with the
`audio/mpeg` MIME type, or the JSON error payload with HTTP status
500. -/
inductive AudioEndpointResult where
  | audio (b : Bytes) (mime : String)
  | failure (errorField : String) (httpStatus : Nat)
deriving DecidableEq

/-- `text_to_speech(text)` (app.py:461-481): call
`cached_text_to_speech` inside `try`; re-join the result if it is a
generator (it is already `bytes`, so the `isinstance` guard at
app.py:475 skips the join) and return it as `audio/mpeg`; any raised
exception yields `jsonify({"error": "Failed to generate audio"}), 500`.
The free provider is not consulted anywhere on this route. -/
def text_to_speech (client : PyStr → Except PyErr GenerateResult)
    (cache : LruCache) (text : PyStr) : AudioEndpointResult × LruCache :=
  match cached_text_to_speech client cache text with
  | .ok (b, c, _) => (.audio b "audio/mpeg", c)
  | .error _ => (.failure "Failed to generate audio" 500, cache)

/-!
## Transcription endpoint (`transcribe_with_assemblyai`, app.py:527-595)
-/

/-- The JSON body of a `/transcribe_audio` response; each field is
`none` when absent from the body. -/
structure TranscribeBody where
  transcript : Option String
  error : Option String
  status : Option String
deriving DecidableEq, Repr

/-- `transcribe_with_assemblyai()` (app.py:527-595). `hasAudio` is
`'audio' in request.files`; `keyConfigured` is
`ASSEMBLY_AI_API_KEY and ASSEMBLY_AI_API_KEY != "your-assemblyai-key"`;
`transcriber` is the `transcriber.transcribe(...)` outcome, whose
`.text` may be `None` (coerced to `""` at app.py:570). Returns the
JSON body and the HTTP status.

* no audio file → `jsonify({"error": "No audio file provided"}), 400`
  (app.py:538-539; the body has no transcript or status field);
* unconfigured key → transcript `""`, explanatory error,
  status `error`, HTTP 400 (app.py:555-559);
* transcriber raises → transcript `""`, explanatory error,
  status `error`, HTTP 500 (app.py:583-595);
* success → transcript text, status `success`, HTTP 200. -/
def transcribe_with_assemblyai (hasAudio : Bool) (keyConfigured : Bool)
    (transcriber : Except PyErr (Option String)) : TranscribeBody × Nat :=
  if !hasAudio then
    (⟨none, some "No audio file provided", none⟩, 400)
  else if !keyConfigured then
    (⟨some "",
      some "AssemblyAI API key is not configured. Please update api_key.json with your key.",
      some "error"⟩, 400)
  else
    match transcriber with
    | .ok t => (⟨some (t.getD ""), none, some "success"⟩, 200)
    | .error e =>
        (⟨some "", some ("AssemblyAI error: " ++ e.msg), some "error"⟩, 500)

/-!
## Helper lemmas
-/

theorem truthy_eq_true_iff (b : Bytes) : truthy b = true ↔ b ≠ [] := by
  cases b <;> simp [truthy]

theorem truthyOpt_eq_true_iff (o : Option Bytes) :
    truthyOpt o = true ↔ ∃ b, b ≠ [] ∧ o = some b := by
  cases o with
  | none => simp [truthyOpt]
  | some b =>
      simp only [truthyOpt, truthy_eq_true_iff, Option.some.injEq]
      constructor
      · intro h
        exact ⟨b, h, rfl⟩
      · rintro ⟨b', hb', rfl⟩
        exact hb'

theorem LruCache.put_lookup (c : LruCache) (k : PyStr) (v : Bytes)
    (h : 0 < c.maxsize) : (c.put k v).lookup k = some v := by
  obtain ⟨entries, maxsize⟩ := c
  cases maxsize with
  | zero => simp at h
  | succ n =>
      simp [LruCache.put, LruCache.lookup, List.take_succ_cons, List.find?]

theorem LruCache.put_get_hit (c : LruCache) (k : PyStr) (v : Bytes)
    (h : 0 < c.maxsize) : (c.put k v).get k = some (v, c.put k v) := by
  obtain ⟨entries, maxsize⟩ := c
  cases maxsize with
  | zero => simp at h
  | succ n =>
      simp [LruCache.put, LruCache.get, List.take_succ_cons, List.find?,
        List.eraseP_cons_of_pos]

/-!
## Claims
-/

/-- C1. For every input text, `generate_audio` returns (never raises) a
value that is either non-empty audio bytes or `None`; every failure at
every stage is caught, the final stage's failure collapsing to `None`.
Likewise the greeting synthesis sequence of `generate_introduction`
always returns, with an audio field that is `null` or the base64
encoding of non-empty bytes. -/
theorem generate_audio_never_raises_none_or_nonempty
    (freeApi : Except PyErr HttpResponse)
    (client : PyStr → Except PyErr GenerateResult)
    (cache : LruCache) (text : PyStr) (introSource : Except PyErr PyStr) :
    (∃ ob c, generate_audio freeApi client cache text = .ok (ob, c) ∧
      (ob = none ∨ ∃ b : Bytes, b ≠ [] ∧ ob = some b)) ∧
    ((generate_introduction introSource freeApi client cache).1.audio = none ∨
      ∃ b : Bytes, b ≠ [] ∧
        (generate_introduction introSource freeApi client cache).1.audio =
          some (base64String b)) := by
  constructor
  · cases h1 : truthyOpt (generate_free_tts freeApi) with
    | true =>
        refine ⟨generate_free_tts freeApi, cache, by simp [generate_audio, h1], ?_⟩
        right
        exact (truthyOpt_eq_true_iff _).mp h1
    | false =>
        cases h2 : cached_text_to_speech client cache text with
        | error e =>
            exact ⟨none, cache,
              by simp [generate_audio, h1, h2, pyTry, Except.bind], Or.inl rfl⟩
        | ok r =>
            obtain ⟨b, c, n⟩ := r
            cases h3 : truthy b with
            | true =>
                exact ⟨some b, c,
                  by simp [generate_audio, h1, h2, h3, pyTry, Except.bind],
                  Or.inr ⟨b, (truthy_eq_true_iff b).mp h3, rfl⟩⟩
            | false =>
                exact ⟨none, c,
                  by simp [generate_audio, h1, h2, h3, pyTry, Except.bind],
                  Or.inl rfl⟩
  · cases hi : introSource with
    | error e => left; simp [generate_introduction, hi]
    | ok introduction =>
        cases h1 : truthyOpt (generate_free_tts freeApi) with
        | true =>
            obtain ⟨b, hb, hsome⟩ := (truthyOpt_eq_true_iff _).mp h1
            have hb' : truthy b = true := (truthy_eq_true_iff b).mpr hb
            right
            exact ⟨b, hb,
              by simp [generate_introduction, hi, hsome, truthyOpt, hb']⟩
        | false =>
            cases h2 : cached_text_to_speech client cache introduction with
            | error e => left; simp [generate_introduction, hi, h1, h2]
            | ok r =>
                obtain ⟨b, c, n⟩ := r
                cases h3 : truthy b with
                | true =>
                    right
                    exact ⟨b, (truthy_eq_true_iff b).mp h3,
                      by simp [generate_introduction, hi, h1, h2, h3]⟩
                | false => left; simp [generate_introduction, hi, h1, h2, h3]

/-- C2. Fallback ordering of `generate_audio`: a truthy free-provider
result is returned immediately (the paid path untouched, cache
unchanged); with the free provider failing and the paid client
producing bytes `B` on a cache miss, the result is `B` (now cached);
with the free provider failing and the paid client raising, the result
is `None` and the cache is unchanged. -/
theorem generate_audio_fallback_ordering
    (freeApi : Except PyErr HttpResponse)
    (client : PyStr → Except PyErr GenerateResult)
    (cache : LruCache) (text : PyStr) (B : Bytes) (err : PyErr) :
    (truthyOpt (generate_free_tts freeApi) = true →
      generate_audio freeApi client cache text =
        .ok (generate_free_tts freeApi, cache)) ∧
    (truthyOpt (generate_free_tts freeApi) = false →
      cache.get text = none →
      client text = .ok (.bytes B) → B ≠ [] →
      generate_audio freeApi client cache text =
        .ok (some B, cache.put text B)) ∧
    (truthyOpt (generate_free_tts freeApi) = false →
      cache.get text = none →
      client text = .error err →
      generate_audio freeApi client cache text = .ok (none, cache)) := by
  refine ⟨fun h1 => by simp [generate_audio, h1], fun h1 hmiss hcl hB => ?_,
    fun h1 hmiss hcl => ?_⟩
  · have hb : truthy B = true := (truthy_eq_true_iff B).mpr hB
    simp [generate_audio, h1, pyTry, cached_text_to_speech, hmiss, hcl,
      Except.bind, materialize, hb]
  · simp [generate_audio, h1, pyTry, cached_text_to_speech, hmiss, hcl,
      Except.bind]

/-- C2 witness: with a free provider returning HTTP 500 and a paid
client producing `[7]` on an empty cache, `generate_audio` returns
`[7]`; with the paid client raising as well, it returns `None`; a free
provider returning 200 with `[1]` short-circuits. -/
theorem generate_audio_fallback_ordering_witness :
    truthyOpt (generate_free_tts (.ok ⟨200, [1]⟩)) = true ∧
    generate_audio (.ok ⟨200, [1]⟩)
      (fun _ => .ok (.bytes [7])) ⟨[], 128⟩ ['h', 'i'] =
      .ok (generate_free_tts (.ok ⟨200, [1]⟩), ⟨[], 128⟩) ∧
    truthyOpt (generate_free_tts (.ok ⟨500, [1]⟩)) = false ∧
    LruCache.get ⟨[], 128⟩ ['h', 'i'] = none ∧
    ([7] : Bytes) ≠ [] ∧
    generate_audio (.ok ⟨500, [1]⟩)
      (fun _ => .ok (.bytes [7])) ⟨[], 128⟩ ['h', 'i'] =
      .ok (some [7], LruCache.put ⟨[], 128⟩ ['h', 'i'] [7]) ∧
    generate_audio (.ok ⟨500, [1]⟩)
      (fun _ => .error ⟨"quota"⟩) ⟨[], 128⟩ ['h', 'i'] =
      .ok (none, ⟨[], 128⟩) :=
  ⟨by decide,
   (generate_audio_fallback_ordering (.ok ⟨200, [1]⟩)
      (fun _ => .ok (.bytes [7])) ⟨[], 128⟩ ['h', 'i'] [7] ⟨"quota"⟩).1
     (by decide),
   by decide, by decide, by decide,
   (generate_audio_fallback_ordering (.ok ⟨500, [1]⟩)
      (fun _ => .ok (.bytes [7])) ⟨[], 128⟩ ['h', 'i'] [7] ⟨"quota"⟩).2.1
     (by decide) (by decide) rfl (by decide),
   (generate_audio_fallback_ordering (.ok ⟨500, [1]⟩)
      (fun _ => .error ⟨"quota"⟩) ⟨[], 128⟩ ['h', 'i'] [7] ⟨"quota"⟩).2.2
     (by decide) (by decide) rfl⟩

/-- C3. The code does NOT meet the 10-second deadline bound: with a
synthesis task that blocks 30 seconds, the caller is blocked the full
30 seconds (because `with ThreadPoolExecutor()` exits through
`shutdown(wait=True)` before `future.result(timeout=10)` runs), no
timeout indication is produced, and the handler's status is therefore
never `audio_error` — whereas the specified `runWithDeadline` would
return a timeout indication at 10 seconds. -/
theorem chat_audio_wait_misses_deadline (r : Option Bytes) :
    (chatAudioWait ⟨30, r⟩).1 = 30 ∧
    10 < (chatAudioWait ⟨30, r⟩).1 ∧
    (chatAudioWait ⟨30, r⟩).2 = .completed r ∧
    chatStatusOfOutcome (chatAudioWait ⟨30, r⟩).2 ≠ "audio_error" ∧
    runWithDeadlineSpec ⟨30, r⟩ 10 = (10, .timedOut) := by
  cases r <;>
    simp [chatAudioWait, futureResult, chatStatusOfOutcome, runWithDeadlineSpec]

/-- C4. The synthesis cache holds at most `maxsize` (128) entries; with
the cache full at 128 entries and a fresh 129th key inserted, the
least-recently-used entry (the last, i.e. earliest-inserted-and-not-
recently-accessed) is the one evicted and the new key heads the cache;
a get immediately after a put of the same key hits and returns the
exact bytes stored. -/
theorem lru_cache_capacity_eviction_and_hit
    (c : LruCache) (k : PyStr) (v : Bytes) :
    ((c.put k v).entries.length ≤ c.maxsize) ∧
    (c.maxsize = CACHE_MAXSIZE → c.entries.length = CACHE_MAXSIZE →
      (∀ e ∈ c.entries, e.1 ≠ k) →
      (c.put k v).entries = (k, v) :: c.entries.dropLast) ∧
    (0 < c.maxsize →
      (c.put k v).lookup k = some v ∧
      (c.put k v).get k = some (v, c.put k v)) := by
  refine ⟨?_, fun h1 h2 h3 => ?_, fun h => ⟨LruCache.put_lookup c k v h,
    LruCache.put_get_hit c k v h⟩⟩
  · simp only [LruCache.put, List.length_take]
    exact Nat.min_le_left _ _
  · have herase : c.entries.eraseP (fun x => decide (x.1 = k)) = c.entries :=
      List.eraseP_of_forall_not (by intro a ha; simp [h3 a ha])
    simp only [CACHE_MAXSIZE] at h1 h2
    simp only [LruCache.put, herase, h1]
    rw [show (128 : Nat) = 127 + 1 from rfl, List.take_succ_cons,
      List.dropLast_eq_take, h2]

/-- A full 128-entry cache used to witness the eviction theorem. -/
def fullCache : LruCache :=
  ⟨(List.range 128).map (fun i => ([Char.ofNat (i + 300)], [i])), 128⟩

set_option maxRecDepth 40000 in
/-- C4 witness: on the concrete full 128-entry cache `fullCache`, a put
of the fresh key `['a']` evicts exactly the last entry, and a get right
after the put returns the stored bytes. -/
theorem lru_cache_capacity_eviction_and_hit_witness :
    fullCache.maxsize = CACHE_MAXSIZE ∧
    fullCache.entries.length = CACHE_MAXSIZE ∧
    (∀ e ∈ fullCache.entries, e.1 ≠ ['a']) ∧
    0 < fullCache.maxsize ∧
    (fullCache.put ['a'] [9]).entries.length ≤ fullCache.maxsize ∧
    (fullCache.put ['a'] [9]).entries = (['a'], [9]) :: fullCache.entries.dropLast ∧
    (fullCache.put ['a'] [9]).lookup ['a'] = some [9] :=
  ⟨rfl, by simp [fullCache, CACHE_MAXSIZE], by decide, by decide,
   (lru_cache_capacity_eviction_and_hit fullCache ['a'] [9]).1,
   (lru_cache_capacity_eviction_and_hit fullCache ['a'] [9]).2.1 rfl
     (by simp [fullCache, CACHE_MAXSIZE]) (by decide),
   ((lru_cache_capacity_eviction_and_hit fullCache ['a'] [9]).2.2 (by decide)).1⟩

/-- C5. Memoization of the paid-provider path: a cache miss triggers
exactly one underlying client call whose materialized result is stored
before being returned; an immediately repeated call for the same text
hits the cache and makes zero further client calls, returning the same
bytes. -/
theorem cached_text_to_speech_memoization
    (client : PyStr → Except PyErr GenerateResult)
    (cache : LruCache) (text : PyStr) (g : GenerateResult)
    (hsize : 0 < cache.maxsize)
    (hmiss : cache.get text = none)
    (hcl : client text = .ok g) :
    cached_text_to_speech client cache text =
      .ok (materialize g, cache.put text (materialize g), 1) ∧
    cached_text_to_speech client (cache.put text (materialize g)) text =
      .ok (materialize g, cache.put text (materialize g), 0) := by
  constructor
  · simp [cached_text_to_speech, hmiss, hcl]
  · simp [cached_text_to_speech,
      LruCache.put_get_hit cache text (materialize g) hsize]

/-- C5 witness: on an empty cache with a client producing `[3]`, the
first call makes one client call and stores the bytes; the repeat call
makes zero client calls and returns the same bytes. -/
theorem cached_text_to_speech_memoization_witness :
    0 < (⟨[], 128⟩ : LruCache).maxsize ∧
    LruCache.get ⟨[], 128⟩ ['h'] = none ∧
    (cached_text_to_speech (fun _ => .ok (.bytes [3])) ⟨[], 128⟩ ['h'] =
       .ok ([3], LruCache.put ⟨[], 128⟩ ['h'] [3], 1) ∧
     cached_text_to_speech (fun _ => .ok (.bytes [3]))
        (LruCache.put ⟨[], 128⟩ ['h'] [3]) ['h'] =
       .ok ([3], LruCache.put ⟨[], 128⟩ ['h'] [3], 0)) :=
  ⟨by decide, by decide,
   cached_text_to_speech_memoization (fun _ => .ok (.bytes [3])) ⟨[], 128⟩
     ['h'] (.bytes [3]) (by decide) (by decide) rfl⟩

/-- C6. Input truncation: a message longer than 500 characters is
forwarded as its first 500 characters plus the `"..."` marker — at most
503 characters; a message of at most 500 characters is forwarded
unchanged; and the chat handler's behaviour depends on the backend only
through its answer at the truncated text. -/
theorem chat_truncation (m : PyStr) :
    (500 < m.length →
      truncateMessage m = m.take 500 ++ ['.', '.', '.'] ∧
      (truncateMessage m).length ≤ 503) ∧
    (m.length ≤ 500 → truncateMessage m = m) ∧
    (∀ (g₁ g₂ : PyStr → Except PyErr String)
       (freeApi : Except PyErr HttpResponse)
       (client : PyStr → Except PyErr GenerateResult) (cache : LruCache),
      g₁ (truncateMessage m) = g₂ (truncateMessage m) →
      chat_endpoint (some m) g₁ freeApi client cache =
        chat_endpoint (some m) g₂ freeApi client cache) := by
  refine ⟨fun h => ?_, fun h => ?_, fun g₁ g₂ freeApi client cache hg => ?_⟩
  · have heq : truncateMessage m = m.take 500 ++ ['.', '.', '.'] := by
      unfold truncateMessage
      rw [if_pos h]
    refine ⟨heq, ?_⟩
    rw [heq]
    simp only [List.length_append, List.length_take, List.length_cons,
      List.length_nil]
    omega
  · unfold truncateMessage
    rw [if_neg (by omega)]
  · unfold chat_endpoint
    dsimp only
    rw [hg]

set_option maxRecDepth 8000 in
/-- C6 witness: a 600-character message is forwarded with at most 503
characters; a 500-character message is forwarded unchanged. -/
theorem chat_truncation_witness :
    500 < (List.replicate 600 'a').length ∧
    (truncateMessage (List.replicate 600 'a')).length ≤ 503 ∧
    (List.replicate 500 'a').length ≤ 500 ∧
    truncateMessage (List.replicate 500 'a') = List.replicate 500 'a' :=
  ⟨by decide, ((chat_truncation (List.replicate 600 'a')).1 (by decide)).2,
   by decide, (chat_truncation (List.replicate 500 'a')).2.1 (by decide)⟩

/-- C7 counterexample: with an audio file attached but the
speech-recognition key unconfigured, the endpoint answers HTTP 400 — a
client-error status, not the server-error status the claim asserts for
an unconfigured key. -/
theorem transcribe_unconfigured_key_counterexample :
    (transcribe_with_assemblyai true false (.ok (some "hello"))).2 = 400 ∧
    ¬ 500 ≤ (transcribe_with_assemblyai true false (.ok (some "hello"))).2 := by
  constructor <;> simp [transcribe_with_assemblyai]

/-- C7 (amended). The transcription endpoint fails with client-error
400 when no audio file is attached, with server-error 500 when the
speech-recognition backend itself fails, and with client-error 400 —
not a server error — when the speech-recognition key is unconfigured. -/
theorem transcribe_status_codes
    (kc : Bool) (t : Except PyErr (Option String)) (e : PyErr) :
    (transcribe_with_assemblyai false kc t).2 = 400 ∧
    (transcribe_with_assemblyai true true (.error e)).2 = 500 ∧
    (transcribe_with_assemblyai true false t).2 = 400 := by
  refine ⟨?_, ?_, ?_⟩ <;> simp [transcribe_with_assemblyai]

/-- C8 counterexample: the response to an upload with no `audio` field
has no `transcript` field at all — in particular not an empty
transcript — even though its status is 400 as claimed. -/
theorem transcribe_no_audio_body_counterexample :
    (transcribe_with_assemblyai false true (.ok (some "hi"))).1.transcript = none ∧
    (transcribe_with_assemblyai false true (.ok (some "hi"))).1.transcript ≠ some "" ∧
    (transcribe_with_assemblyai false true (.ok (some "hi"))).2 = 400 := by
  refine ⟨?_, ?_, ?_⟩ <;> simp [transcribe_with_assemblyai]

/-- C8 (amended). For a transcription call whose upload contains no
`audio` field, the response is client-error 400 with the explanatory
error message `"No audio file provided"`, and its body omits the
transcript (and status) fields entirely rather than containing an
empty transcript. -/
theorem transcribe_no_audio_response
    (kc : Bool) (t : Except PyErr (Option String)) :
    transcribe_with_assemblyai false kc t =
      (⟨none, some "No audio file provided", none⟩, 400) := by
  simp [transcribe_with_assemblyai]

/-- C9. The on-demand audio endpoint synthesizes solely via the cached
paid-provider path (`text_to_speech` takes no free-provider input at
all): on a cache miss a streamed client payload is drained into one
contiguous buffer which is returned as `audio/mpeg` and cached; if the
client raises, the endpoint returns the JSON error payload with HTTP
500 instead of propagating; a cache hit returns the cached buffer. -/
theorem text_to_speech_endpoint
    (client : PyStr → Except PyErr GenerateResult)
    (cache : LruCache) (text : PyStr) (cs : List Bytes) (e : PyErr) :
    (cache.get text = none → client text = .ok (.chunks cs) →
      text_to_speech client cache text =
        (.audio cs.flatten "audio/mpeg", cache.put text cs.flatten)) ∧
    (cache.get text = none → client text = .error e →
      text_to_speech client cache text =
        (.failure "Failed to generate audio" 500, cache)) ∧
    (∀ b c', cache.get text = some (b, c') →
      text_to_speech client cache text = (.audio b "audio/mpeg", c')) := by
  refine ⟨fun hmiss hcl => ?_, fun hmiss hcl => ?_, fun b c' hhit => ?_⟩
  · simp [text_to_speech, cached_text_to_speech, hmiss, hcl, materialize]
  · simp [text_to_speech, cached_text_to_speech, hmiss, hcl]
  · simp [text_to_speech, cached_text_to_speech, hhit]

/-- C9 witness: a chunked client result comes back as one joined
buffer and is cached; a raising client yields the 500 error payload; a
hit returns the cached bytes. -/
theorem text_to_speech_endpoint_witness :
    LruCache.get ⟨[], 128⟩ ['x'] = none ∧
    text_to_speech (fun _ => .ok (.chunks [[1], [2, 3]])) ⟨[], 128⟩ ['x'] =
      (.audio ([[1], [2, 3]] : List Bytes).flatten "audio/mpeg",
        LruCache.put ⟨[], 128⟩ ['x'] ([[1], [2, 3]] : List Bytes).flatten) ∧
    text_to_speech (fun _ => .error ⟨"boom"⟩) ⟨[], 128⟩ ['x'] =
      (.failure "Failed to generate audio" 500, ⟨[], 128⟩) ∧
    LruCache.get ⟨[(['x'], [9])], 128⟩ ['x'] =
      some ([9], ⟨[(['x'], [9])], 128⟩) ∧
    text_to_speech (fun _ => .ok (.chunks [])) ⟨[(['x'], [9])], 128⟩ ['x'] =
      (.audio [9] "audio/mpeg", ⟨[(['x'], [9])], 128⟩) :=
  ⟨by decide,
   (text_to_speech_endpoint (fun _ => .ok (.chunks [[1], [2, 3]])) ⟨[], 128⟩
      ['x'] [[1], [2, 3]] ⟨"boom"⟩).1 (by decide) rfl,
   (text_to_speech_endpoint (fun _ => .error ⟨"boom"⟩) ⟨[], 128⟩
      ['x'] [[1], [2, 3]] ⟨"boom"⟩).2.1 (by decide) rfl,
   by decide,
   (text_to_speech_endpoint (fun _ => .ok (.chunks [])) ⟨[(['x'], [9])], 128⟩
      ['x'] [] ⟨"boom"⟩).2.2 [9] ⟨[(['x'], [9])], 128⟩ (by decide)⟩

/-- C10. For a chat request whose JSON payload has no `message` field,
the extracted message is `None`; `len(None)` raises inside the outer
`try`, and the endpoint returns the fixed apologetic fallback text with
audio null and status `api_error` — never an unhandled fault. -/
theorem chat_missing_message_api_error
    (gemini : PyStr → Except PyErr String)
    (freeApi : Except PyErr HttpResponse)
    (client : PyStr → Except PyErr GenerateResult)
    (cache : LruCache) :
    chat_endpoint none gemini freeApi client cache =
      (⟨apologyText, none, "api_error"⟩, cache) := rfl

end App
